import Mathlib

/-!
Shallow embedding of `app/core/vector_store.py` from the RAG-AWS-Project
repository: a thin service layer over the Qdrant vector database client and an
embedding provider.  The repository functions are embedded as pure Lean
functions; calls into the third-party client (`qdrant_client`,
`langchain_qdrant`) are represented by passing the client's response, or a model
of the external server state, as an explicit argument.
-/

namespace VectorStore

/-- Embedding of `langchain_core.documents.Document`: page content plus a string
metadata mapping. -/
structure Document where
  pageContent : String
  metadata : List (String × String)
deriving DecidableEq, Repr

/-- Embedding of `qdrant_client.http.models.Distance`. -/
inductive Distance where
  | cosine
  | euclid
  | dot
deriving DecidableEq, Repr

/-- Embedding of `qdrant_client.http.models.VectorParams`. -/
structure VectorParams where
  size : Nat
  distance : Distance
deriving DecidableEq, Repr

/-- The `config.params.vectors` field of a collection: either a dict of named
vector fields (named vectors) or a single unnamed `VectorParams`. -/
inductive VectorsConfig where
  | named (fields : List (String × VectorParams))
  | unnamed (params : VectorParams)
deriving DecidableEq, Repr

/-- Collection metadata returned by `client.get_collection`. -/
structure CollectionInfo where
  pointsCount : Nat
  indexedVectorsCount : Nat
  status : String
  vectorsConfig : VectorsConfig
deriving DecidableEq, Repr

/-- Exceptions raised by the qdrant client: `UnexpectedResponse` (carrying the
HTTP status code of the unexpected response) or an exception of any other class
(connection errors and the like). -/
inductive QdrantError where
  | unexpectedResponse (status : Nat)
  | otherError (msg : String)
deriving DecidableEq, Repr

/-- A client failure is a "not found" condition exactly when it is the 404
`UnexpectedResponse`. -/
def isNotFound : QdrantError → Bool
  | .unexpectedResponse 404 => true
  | _ => false

/-- Modelled from the spec: `app.config.Settings` (the file `app/config.py` is
not among the sources).  The spec lists the recognized options: store URL,
optional API key, collection name, embedding model name, default result
count. -/
structure Settings where
  qdrantUrl : String
  qdrantApiKey : Option String
  collectionName : String
  embeddingModel : String
  retrievalK : Nat
deriving DecidableEq, Repr

/-- Embedding of the module-level dict `EMBEDDING_DIMENSIONS`. -/
def EMBEDDING_DIMENSIONS : List (String × Nat) :=
  [("text-embedding-3-small", 1536),
   ("text-embedding-3-large", 3072),
   ("text-embedding-ada-002", 1536)]

/-- Embedding of `get_embedding_dimension`: dict lookup on the configured
model; a missing key (`None`) falls back to 1536 with a logged warning.  The
function is total: it never raises. -/
def get_embedding_dimension (s : Settings) : Nat :=
  match EMBEDDING_DIMENSIONS.lookup s.embeddingModel with
  | some d => d
  | none => 1536

/-- The qdrant client value, identified by the constructor arguments passed in
`QdrantClient(**client_kwargs)`. -/
structure QdrantClient where
  url : String
  apiKey : Option String
deriving DecidableEq, Repr

/-- The body of `get_qdrant_client` without the cache: `client_kwargs` holds the
URL, and `api_key` only when `settings.qdrant_api_key` is truthy (neither `None`
nor the empty string). -/
def makeQdrantClient (s : Settings) : QdrantClient :=
  ⟨s.qdrantUrl,
    match s.qdrantApiKey with
    | some key => if key = "" then none else some key
    | none => none⟩

/-- Process-wide state for the `@lru_cache` decorating `get_qdrant_client`:
the cached client, if the function has already been called. -/
structure ProcessState where
  cachedClient : Option QdrantClient
deriving DecidableEq, Repr

/-- Embedding of `get_qdrant_client` under `@lru_cache`: the first call
constructs the client and caches it; every later call returns the cached
instance unchanged. -/
def get_qdrant_client (s : Settings) (ps : ProcessState) :
    QdrantClient × ProcessState :=
  match ps.cachedClient with
  | some c => (c, ps)
  | none => (makeQdrantClient s, ⟨some (makeQdrantClient s)⟩)

/-- The client stored by `VectorStoreService.__init__`
(`self.client = get_qdrant_client()`), together with the process state after
construction. -/
def serviceInitClient (s : Settings) (ps : ProcessState) :
    QdrantClient × ProcessState :=
  get_qdrant_client s ps

/-- Modelled from the spec: the external Qdrant server as seen through the
client (third-party `qdrant_client`, not part of this repository): the named
collections it holds and whether it is reachable. -/
structure QdrantState where
  collections : List (String × CollectionInfo)
  reachable : Bool
deriving DecidableEq, Repr

/-- Modelled from the spec: `client.get_collection(name)` raises
`UnexpectedResponse` with status 404 when the collection does not exist, and an
exception of another class when the server is unreachable. -/
def clientGetCollection (st : QdrantState) (name : String) :
    Except QdrantError CollectionInfo :=
  if st.reachable then
    match st.collections.lookup name with
    | some info => .ok info
    | none => .error (.unexpectedResponse 404)
  else
    .error (.otherError "connection refused")

/-- Modelled from the spec: the probe `client.get_collections()` succeeds
exactly when the server is reachable, returning the collection names. -/
def clientGetCollections (st : QdrantState) : Except QdrantError (List String) :=
  if st.reachable then .ok (st.collections.map Prod.fst)
  else .error (.otherError "connection refused")

/-- Embedding of `VectorStoreService._ensure_collection`, as a function of the
response of `client.get_collection(self.collection_name)`: on success nothing is
created; the `except UnexpectedResponse` clause catches every
`UnexpectedResponse` (whatever its status) and issues a creation request with
size `get_embedding_dimension()` and cosine distance; an exception of any other
class propagates.  The result carries the `VectorParams` of the creation
request when one is issued. -/
def ensureCollection (s : Settings) (resp : Except QdrantError CollectionInfo) :
    Except QdrantError (Option VectorParams) :=
  match resp with
  | .ok _ => .ok none
  | .error (.unexpectedResponse _) =>
      .ok (some ⟨get_embedding_dimension s, Distance.cosine⟩)
  | .error e => .error e

/-- Embedding of `VectorStoreService._get_vector_name`, as a function of the
response of `client.get_collection`: named vectors yield the first key, a
single unnamed `VectorParams` yields `""`, and the bare `except Exception`
clause turns every failure into `""`. -/
def getVectorName (resp : Except QdrantError CollectionInfo) : String :=
  match resp with
  | .ok info =>
      match info.vectorsConfig with
      | .named fields =>
          match fields.map Prod.fst with
          | name :: _ => name
          | [] => ""
      | .unnamed _ => ""
  | .error _ => ""

/-- Fresh-supply state standing for the `uuid4` random source: `uuid4` draws
are pairwise distinct, which the model renders as a strictly increasing
counter. -/
structure UuidGen where
  counter : Nat
deriving DecidableEq, Repr

/-- The decimal digit `d` as a character (`0` ↦ `'0'`, ..., `9` ↦ `'9'`). -/
def digitChar (d : Nat) : Char := Char.ofNat (48 + d)

/-- Left inverse of `digitChar` on decimal digits. -/
def charToDigit (c : Char) : Nat := c.toNat - 48

/-- Rendering of the `n`-th `uuid4` draw as a string, `str(uuid4())`: an
injective decimal rendering of the fresh-supply counter.  Only distinctness of
the rendered strings matters to the service code. -/
def uuidStr (n : Nat) : String := ⟨((Nat.digits 10 n).map digitChar).reverse⟩

/-- One draw of `str(uuid4())` from the fresh supply. -/
def freshUuid (g : UuidGen) : String × UuidGen :=
  (uuidStr g.counter, ⟨g.counter + 1⟩)

/-- Embedding of the comprehension `ids = [str(uuid4()) for _ in documents]`:
one fresh draw per document, in input order. -/
def genIds (g : UuidGen) : List Document → List String × UuidGen
  | [] => ([], g)
  | _ :: ds =>
      let p := freshUuid g
      let q := genIds p.2 ds
      (p.1 :: q.1, q.2)

/-- A call submitted to the external vector store by the service. -/
inductive StoreCall where
  | addDocuments (documents : List Document) (ids : List String)
deriving DecidableEq, Repr

/-- Embedding of `VectorStoreService.add_documents`: an empty list returns `[]`
at once; otherwise one fresh id is generated per document and a single
`add_documents` call carrying the documents and ids is submitted to the store.
Returns the ids, the calls made to the external store, and the updated uuid
source. -/
def add_documents (g : UuidGen) (documents : List Document) :
    List String × List StoreCall × UuidGen :=
  if documents.isEmpty then ([], [], g)
  else
    let p := genIds g documents
    (p.1, [StoreCall.addDocuments documents p.1], p.2)

/-- Modelled from the spec: the external `QdrantVectorStore` (third-party
`langchain_qdrant`): the stored documents, and the similarity score the
external engine assigns to a stored document for a given query (cosine
similarity of the embeddings, abstracted as a function). -/
structure VectorStoreModel where
  points : List Document
  score : String → Document → Int

/-- Ordering of scored results by descending score. -/
def scoreGE (a b : Document × Int) : Prop := b.2 ≤ a.2

instance : DecidableRel scoreGE :=
  fun a b => show Decidable (b.2 ≤ a.2) from inferInstance

instance : IsTotal (Document × Int) scoreGE :=
  ⟨fun a b => le_total b.2 a.2⟩

instance : IsTrans (Document × Int) scoreGE :=
  ⟨fun _ _ _ hab hbc => le_trans hbc hab⟩

/-- Modelled from the spec: `similarity_search_with_score` on the external
store — every stored point is scored against the query and the `k` best-scoring
points are returned in descending score order. -/
def similaritySearchWithScore (vs : VectorStoreModel) (query : String) (k : Nat) :
    List (Document × Int) :=
  (List.insertionSort scoreGE
    (vs.points.map (fun d => (d, vs.score query d)))).take k

/-- Modelled from the spec: `similarity_search` on the external store — the
same results as `similaritySearchWithScore`, without the scores. -/
def similaritySearch (vs : VectorStoreModel) (query : String) (k : Nat) :
    List Document :=
  (similaritySearchWithScore vs query k).map Prod.fst

/-- Embedding of the Python line `k = k or settings.retrieval_k` shared by
`search`, `search_with_scores` and `get_retriever`: `None` and `0` are both
falsy, so both select the configured default. -/
def orRetrievalK (s : Settings) (k : Option Nat) : Nat :=
  match k with
  | none => s.retrievalK
  | some v => if v = 0 then s.retrievalK else v

/-- Embedding of `VectorStoreService.search`. -/
def search (s : Settings) (vs : VectorStoreModel) (query : String)
    (k : Option Nat) : List Document :=
  similaritySearch vs query (orRetrievalK s k)

/-- Embedding of `VectorStoreService.search_with_scores`. -/
def search_with_scores (s : Settings) (vs : VectorStoreModel) (query : String)
    (k : Option Nat) : List (Document × Int) :=
  similaritySearchWithScore vs query (orRetrievalK s k)

/-- The retriever handle returned by `as_retriever`: the search type and the
bound `k` passed in `search_kwargs`. -/
structure Retriever where
  searchType : String
  k : Nat
deriving DecidableEq, Repr

/-- Embedding of `VectorStoreService.get_retriever`. -/
def get_retriever (s : Settings) (k : Option Nat) : Retriever :=
  ⟨"similarity", orRetrievalK s k⟩

/-- The dict returned by `get_collection_info`. -/
structure CollectionStats where
  name : String
  pointsCount : Nat
  indexedVectorsCount : Nat
  status : String
deriving DecidableEq, Repr

/-- Embedding of `VectorStoreService.get_collection_info`, as a function of the
response of `client.get_collection`: success is repackaged into the stats dict;
the `except UnexpectedResponse` clause yields the zeroed "not_found" record;
an exception of any other class propagates. -/
def get_collection_info (name : String)
    (resp : Except QdrantError CollectionInfo) :
    Except QdrantError CollectionStats :=
  match resp with
  | .ok info => .ok ⟨name, info.pointsCount, info.indexedVectorsCount, info.status⟩
  | .error (.unexpectedResponse _) => .ok ⟨name, 0, 0, "not_found"⟩
  | .error e => .error e

/-- Embedding of `VectorStoreService.health_check`, as a function of the
outcome of the probe `client.get_collections()`: `True` on success; the bare
`except Exception` clause catches every exception and returns `False`.  The
return type `Bool` (rather than `Except`) reflects that no exception escapes
to the caller. -/
def health_check (probe : Except QdrantError (List String)) : Bool :=
  match probe with
  | .ok _ => true
  | .error _ => false

/-- A concrete settings value for witnesses and counterexamples. -/
def sampleSettings : Settings :=
  ⟨"http://localhost:6333", none, "documents", "text-embedding-3-small", 3⟩

/-- A concrete one-point store for witnesses and counterexamples. -/
def sampleStore : VectorStoreModel :=
  ⟨[⟨"alpha", []⟩], fun _ _ => 0⟩

/-- Decoding a decimal digit character recovers the digit. -/
theorem charToDigit_digitChar : ∀ d < 10, charToDigit (digitChar d) = d := by
  decide

/-- Mapping `digitChar` then `charToDigit` over a list of decimal digits is the
identity. -/
theorem map_charToDigit_digitChar :
    ∀ l : List Nat, (∀ d ∈ l, d < 10) →
      (l.map digitChar).map charToDigit = l := by
  intro l hl
  induction l with
  | nil => rfl
  | cons d ds ih =>
      simp only [List.map_cons, List.cons.injEq]
      exact ⟨charToDigit_digitChar d (hl d (by simp)),
        ih (fun x hx => hl x (by simp [hx]))⟩

/-- Distinct fresh-supply counters render to distinct strings. -/
theorem uuidStr_injective : Function.Injective uuidStr := by
  intro m n h
  have h1 : ((Nat.digits 10 m).map digitChar).reverse
      = ((Nat.digits 10 n).map digitChar).reverse := congrArg String.data h
  have h2 := List.reverse_injective h1
  have h3 := congrArg (List.map charToDigit) h2
  rw [map_charToDigit_digitChar _
        (fun d hd => Nat.digits_lt_base (by norm_num) hd),
      map_charToDigit_digitChar _
        (fun d hd => Nat.digits_lt_base (by norm_num) hd)] at h3
  have h4 := congrArg (Nat.ofDigits 10) h3
  rwa [Nat.ofDigits_digits, Nat.ofDigits_digits] at h4

/-- Closed form of the id comprehension: starting from counter `c`, the draws
are `uuidStr c, uuidStr (c+1), ...`, one per document. -/
theorem genIds_eq (ds : List Document) : ∀ g : UuidGen,
    genIds g ds =
      ((List.range ds.length).map (fun i => uuidStr (g.counter + i)),
        ⟨g.counter + ds.length⟩) := by
  induction ds with
  | nil => intro g; simp [genIds]
  | cons d ds ih =>
      intro g
      simp only [genIds, freshUuid, ih ⟨g.counter + 1⟩, List.length_cons,
        List.range_succ_eq_map, List.map_cons, List.map_map]
      refine Prod.ext ?_ ?_
      · simp only [Nat.add_zero]
        refine congrArg (uuidStr g.counter :: ·) ?_
        refine List.map_congr_left (fun i _ => ?_)
        simp [Function.comp]
        ring_nf
      · simp only
        congr 1
        omega

/-- Claim C1, counterexample: an `UnexpectedResponse` with HTTP status 500 is
not a "not found" condition, yet `_ensure_collection` reacts to it by issuing a
creation request instead of propagating the failure — the `except` clause
catches the whole `UnexpectedResponse` class, not only 404. -/
theorem c1_counterexample :
    isNotFound (QdrantError.unexpectedResponse 500) = false ∧
    ensureCollection sampleSettings
        (.error (QdrantError.unexpectedResponse 500)) =
      .ok (some ⟨1536, Distance.cosine⟩) ∧
    ensureCollection sampleSettings
        (.error (QdrantError.unexpectedResponse 500)) ≠
      .error (QdrantError.unexpectedResponse 500) := by
  refine ⟨rfl, rfl, fun hcon => by simp [ensureCollection] at hcon⟩

/-- Claim C1 (amended): when the metadata lookup succeeds nothing is created;
when it fails with an `UnexpectedResponse` of any status (the class the
`except` clause catches, which includes the 404 "not found" condition),
`_ensure_collection` creates the collection with vector size
`get_embedding_dimension` and cosine distance; a lookup failure of any other
exception class is propagated to the caller and no collection is created. -/
theorem c1_ensure_collection (s : Settings) :
    (∀ info, ensureCollection s (.ok info) = .ok none) ∧
    (∀ status, ensureCollection s (.error (.unexpectedResponse status)) =
        .ok (some ⟨get_embedding_dimension s, Distance.cosine⟩)) ∧
    (∀ msg, ensureCollection s (.error (.otherError msg)) =
        .error (.otherError msg)) :=
  ⟨fun _ => rfl, fun _ => rfl, fun _ => rfl⟩

/-- Claim C2, counterexample: with an explicit `k = 0`, `search` does not
return at most `0` results — Python's `k or settings.retrieval_k` treats `0` as
falsy and substitutes the configured default, so a one-point store yields one
result. -/
theorem c2_counterexample :
    ¬ (search sampleSettings sampleStore "q" (some 0)).length ≤ 0 := by
  decide

/-- Claim C2 (amended): with `k` unspecified, `search` uses the configured
default result count; for every nonzero `k`, the result list has length at
most `k` (an explicit `k = 0` instead falls back to the default, see C10); when
scores are requested, the results are ordered by descending similarity
score. -/
theorem c2_search (s : Settings) (vs : VectorStoreModel) (q : String) :
    search s vs q none = search s vs q (some s.retrievalK) ∧
    (∀ k : Nat, k ≠ 0 → (search s vs q (some k)).length ≤ k) ∧
    (∀ k : Option Nat,
      List.Sorted scoreGE (search_with_scores s vs q k)) := by
  refine ⟨?_, ?_, ?_⟩
  · simp [search, orRetrievalK]
  · intro k hk
    simp only [search, similaritySearch, similaritySearchWithScore,
      orRetrievalK, if_neg hk, List.length_map]
    exact List.length_take_le _ _
  · intro k
    exact List.Pairwise.sublist (List.take_sublist _ _)
      (List.sorted_insertionSort scoreGE _)

/-- Claim C2, witness at a concrete input. -/
theorem c2_search_witness :
    (search sampleSettings sampleStore "q" (some 2)).length ≤ 2 :=
  (c2_search sampleSettings sampleStore "q").2.1 2 (by decide)

/-- Claim C3: for every non-empty document list, `add_documents` generates one
fresh identifier per document and returns them in input order — the `i`-th id
is the `i`-th fresh draw — so the returned list has exactly one id per input
document and no duplicates. -/
theorem c3_add_documents (g : UuidGen) (documents : List Document)
    (h : documents ≠ []) :
    (add_documents g documents).1 =
        (List.range documents.length).map (fun i => uuidStr (g.counter + i)) ∧
    (add_documents g documents).1.length = documents.length ∧
    (add_documents g documents).1.Nodup := by
  have hne : documents.isEmpty = false := by
    cases documents with
    | nil => exact absurd rfl h
    | cons a l => rfl
  have hids : (add_documents g documents).1 =
      (List.range documents.length).map (fun i => uuidStr (g.counter + i)) := by
    simp [add_documents, hne, genIds_eq]
  refine ⟨hids, ?_, ?_⟩
  · rw [hids]; simp
  · rw [hids]
    refine List.Nodup.map ?_ (List.nodup_range _)
    intro i j hij
    have := uuidStr_injective hij
    omega

/-- Claim C3, witness at a concrete input. -/
theorem c3_add_documents_witness :
    (add_documents ⟨0⟩ [⟨"alpha", []⟩]).1 =
        (List.range 1).map (fun i => uuidStr (0 + i)) ∧
    (add_documents ⟨0⟩ [⟨"alpha", []⟩]).1.length = 1 ∧
    (add_documents ⟨0⟩ [⟨"alpha", []⟩]).1.Nodup :=
  c3_add_documents ⟨0⟩ [⟨"alpha", []⟩] (by decide)

/-- Claim C4: for the empty document list, `add_documents` returns the empty id
list, submits no call to the external store, and leaves the uuid source
untouched — a no-op, not an error. -/
theorem c4_add_documents_empty (g : UuidGen) :
    add_documents g [] = ([], [], g) := rfl

/-- Claim C5: `get_embedding_dimension` returns the documented constant for
each known model name (text-embedding-3-small ↦ 1536, text-embedding-3-large ↦
3072, text-embedding-ada-002 ↦ 1536) and 1536 for every model name outside the
table; being a total function, it never raises. -/
theorem c5_embedding_dimension :
    (∀ s : Settings, s.embeddingModel = "text-embedding-3-small" →
      get_embedding_dimension s = 1536) ∧
    (∀ s : Settings, s.embeddingModel = "text-embedding-3-large" →
      get_embedding_dimension s = 3072) ∧
    (∀ s : Settings, s.embeddingModel = "text-embedding-ada-002" →
      get_embedding_dimension s = 1536) ∧
    (∀ s : Settings, EMBEDDING_DIMENSIONS.lookup s.embeddingModel = none →
      get_embedding_dimension s = 1536) := by
  refine ⟨?_, ?_, ?_, ?_⟩ <;> intro s hs <;>
    (unfold get_embedding_dimension; rw [hs]) <;> decide

/-- Claim C5, witness at concrete inputs. -/
theorem c5_embedding_dimension_witness :
    get_embedding_dimension
        ⟨"u", none, "c", "text-embedding-3-small", 3⟩ = 1536 ∧
    get_embedding_dimension
        ⟨"u", none, "c", "text-embedding-3-large", 3⟩ = 3072 ∧
    get_embedding_dimension
        ⟨"u", none, "c", "text-embedding-ada-002", 3⟩ = 1536 ∧
    get_embedding_dimension ⟨"u", none, "c", "gpt-4", 3⟩ = 1536 :=
  ⟨c5_embedding_dimension.1 _ rfl,
   c5_embedding_dimension.2.1 _ rfl,
   c5_embedding_dimension.2.2.1 _ rfl,
   c5_embedding_dimension.2.2.2 ⟨"u", none, "c", "gpt-4", 3⟩ (by decide)⟩

/-- Claim C6: when the collection does not exist on a reachable server — the
lookup fails with the 404 `UnexpectedResponse` — `get_collection_info` returns
the record with the collection name, `points_count = 0`,
`indexed_vectors_count = 0` and `status = "not_found"` instead of
propagating the failure. -/
theorem c6_info_not_found (st : QdrantState) (name : String)
    (hreach : st.reachable = true)
    (habs : st.collections.lookup name = none) :
    get_collection_info name (clientGetCollection st name) =
      .ok ⟨name, 0, 0, "not_found"⟩ := by
  simp [clientGetCollection, hreach, habs, get_collection_info]

/-- Claim C6, witness at a concrete input. -/
theorem c6_info_not_found_witness :
    get_collection_info "documents" (clientGetCollection ⟨[], true⟩ "documents") =
      .ok ⟨"documents", 0, 0, "not_found"⟩ :=
  c6_info_not_found ⟨[], true⟩ "documents" rfl rfl

/-- Claim C7: `health_check` returns `true` exactly when the
`get_collections()` probe succeeds and `false` exactly when the probe raises —
every exception is caught and reported as `false`, and the `Bool` return type
means no exception ever propagates to the caller. -/
theorem c7_health_check (probe : Except QdrantError (List String)) :
    (health_check probe = true ↔ ∃ cols, probe = .ok cols) ∧
    (health_check probe = false ↔ ∃ e, probe = .error e) := by
  cases probe <;> simp [health_check]

/-- Claim C8: `_get_vector_name` returns the first key when the existing
collection stores vectors under named keys, the empty string when the
collection uses the single default unnamed vector, and the empty string on any
lookup failure; it never raises to its caller. -/
theorem c8_vector_name (pc ivc : Nat) (stat : String) :
    (∀ (nm : String) (ps : VectorParams)
        (rest : List (String × VectorParams)),
      getVectorName (.ok ⟨pc, ivc, stat, .named ((nm, ps) :: rest)⟩) = nm) ∧
    (∀ ps : VectorParams,
      getVectorName (.ok ⟨pc, ivc, stat, .unnamed ps⟩) = "") ∧
    (∀ e : QdrantError, getVectorName (.error e) = "") :=
  ⟨fun _ _ _ => rfl, fun _ => rfl, fun _ => rfl⟩

/-- Claim C9: the client is created once and cached process-wide — after any
service construction has acquired the client, every further acquisition
(including by another `VectorStoreService.__init__`) returns the identical
client instance and leaves the cache unchanged, so all service instances share
one connection. -/
theorem c9_client_cached (s : Settings) (ps : ProcessState) :
    (serviceInitClient s (serviceInitClient s ps).2).1 =
        (serviceInitClient s ps).1 ∧
    (serviceInitClient s (serviceInitClient s ps).2).2 =
        (serviceInitClient s ps).2 := by
  cases ps with
  | mk cached => cases cached <;> exact ⟨rfl, rfl⟩

/-- Claim C10: an explicit `k = 0` behaves exactly as an unspecified `k` in
`search`, `search_with_scores` and `get_retriever`: Python's
`k or settings.retrieval_k` treats `0` as falsy, so the configured default is
used and a caller can never request zero results. -/
theorem c10_zero_k (s : Settings) (vs : VectorStoreModel) (q : String) :
    search s vs q (some 0) = search s vs q none ∧
    search_with_scores s vs q (some 0) = search_with_scores s vs q none ∧
    get_retriever s (some 0) = get_retriever s none :=
  ⟨rfl, rfl, rfl⟩

end VectorStore
